import Mathlib

/-!
Shallow embedding of the proof-streaming broker in `src/proof_streaming.py`
(`ProofStreamingServer`).  The Python server is single-threaded cooperative
async code; every handler is modelled as a pure function from server state
(and the inputs the handler reads: the client id, the decoded frame, the
current wall-clock time, and the per-client send outcome) to the new server
state together with the list of messages actually delivered, in order.

Python floats used for timestamps are modelled as `ℚ`; `quality_score` /
`quality_threshold` values as `Int` (the code only compares them).  SHA-256
is modelled as an explicit `String → String` parameter of the operations
that call it.  JSON numbers in frames are restricted to integers; filter
payload fields are modelled on well-typed shapes (lists of strings, etc.),
which covers every behaviour the development reasons about.
-/

namespace ProofStreaming

/-- JSON values as decoded by `json.loads` (numbers restricted to
integers, which covers every frame this development reasons about).
Objects keep field order, as Python dicts do. -/
inductive Json where
  | null
  | bool (b : Bool)
  | int (n : Int)
  | str (s : String)
  | arr (elems : List Json)
  | obj (fields : List (String × Json))

/-- First value bound to a key in an association list (Python dict lookup;
Python dicts have at most one entry per key, so "first" is exact). -/
def getKey {α : Type} (l : List (String × α)) (k : String) : Option α :=
  match l with
  | [] => none
  | (k', v) :: rest => if k' = k then some v else getKey rest k

/-- Python dict assignment `d[k] = v`: replaces the value in place if the
key exists, otherwise appends the new entry (dicts preserve insertion
order). -/
def setKey {α : Type} (l : List (String × α)) (k : String) (v : α) :
    List (String × α) :=
  match l with
  | [] => [(k, v)]
  | (k', v') :: rest =>
      if k' = k then (k, v) :: rest else (k', v') :: setKey rest k v

/-- Python `del d[k]` / conditional delete: removes the entry if present,
no-op otherwise. -/
def eraseKey {α : Type} (l : List (String × α)) (k : String) :
    List (String × α) :=
  match l with
  | [] => []
  | (k', v') :: rest =>
      if k' = k then rest else (k', v') :: eraseKey rest k

/-- Update the value at a key in place (`d[k]["event_count"] += 1`);
no-op when the key is absent. -/
def updateKey {α : Type} (l : List (String × α)) (k : String) (f : α → α) :
    List (String × α) :=
  match l with
  | [] => []
  | (k', v') :: rest =>
      if k' = k then (k', f v') :: rest else (k', v') :: updateKey rest k f

/-- `d.get(k)` on a JSON object; `none` for a missing key (and only used on
objects). -/
def Json.getField (j : Json) (k : String) : Option Json :=
  match j with
  | .obj fields => getKey fields k
  | _ => none

/-- `type(x).__name__` for the decoded value, as it appears in Python
error messages. -/
def pyTypeName : Json → String
  | .null => "NoneType"
  | .bool _ => "bool"
  | .int _ => "int"
  | .str _ => "str"
  | .arr _ => "list"
  | .obj _ => "dict"

mutual

/-- Python `repr` of a decoded JSON value (used for elements inside
containers: `str` of a dict renders its strings with quotes). -/
def pyRepr : Json → String
  | .null => "None"
  | .bool true => "True"
  | .bool false => "False"
  | .int n => toString n
  | .str s => "'" ++ s ++ "'"
  | .arr l => "[" ++ pyReprList l ++ "]"
  | .obj l => "\x7b" ++ pyReprFields l ++ "\x7d"

/-- Comma-joined `repr`s of list elements. -/
def pyReprList : List Json → String
  | [] => ""
  | [x] => pyRepr x
  | x :: xs => pyRepr x ++ ", " ++ pyReprList xs

/-- Comma-joined `repr`s of dict items. -/
def pyReprFields : List (String × Json) → String
  | [] => ""
  | [(k, v)] => pyRepr (.str k) ++ ": " ++ pyRepr v
  | (k, v) :: xs => pyRepr (.str k) ++ ": " ++ pyRepr v ++ ", " ++ pyReprFields xs

end

/-- Python `str(x)` / f-string interpolation of a decoded value: like
`repr` except a top-level string renders without quotes. -/
def pyShow : Json → String
  | .str s => s
  | j => pyRepr j

/-- f-string interpolation of a value that may be Python `None`
(`f"Unknown message type: \x7bmsg_type\x7d"` with `msg_type = data.get("type")`). -/
def pyShowOpt : Option Json → String
  | none => "None"
  | some j => pyShow j

/-- `EventType` enumeration from `proof_streaming.py` (7 members). -/
inductive EventType where
  | PROOF_SUBMITTED
  | VERIFICATION_COMPLETE
  | CHAIN_STEP_ADDED
  | STREAM_CREATED
  | AGENT_REGISTERED
  | TASK_DELEGATED
  | OPERAD_COMPLETED
deriving DecidableEq, Repr

/-- `EventType(value)` construction: the Python enum raises `ValueError` on an
unknown value string; modelled as `none`. -/
def EventType.ofString : String → Option EventType
  | "proof_submitted" => some .PROOF_SUBMITTED
  | "verification_complete" => some .VERIFICATION_COMPLETE
  | "chain_step_added" => some .CHAIN_STEP_ADDED
  | "stream_created" => some .STREAM_CREATED
  | "agent_registered" => some .AGENT_REGISTERED
  | "task_delegated" => some .TASK_DELEGATED
  | "operad_completed" => some .OPERAD_COMPLETED
  | _ => none

/-- The keys of `event.data` that the server ever reads or writes
(`architecture`, `agent`, `submitter`, `quality_score`, `chain_id` are read
by `_event_matches_filters`; `proof_hash`, `input_hash`, `creator`, `spec`
are written by the handlers).  Each field is `none` when the key is absent
from the dict. -/
structure EventData where
  architecture : Option String
  agent : Option String
  submitter : Option String
  quality_score : Option Int
  chain_id : Option String
  proof_hash : Option String
  input_hash : Option String
  creator : Option String
  spec : Option Json

/-- The all-absent `event.data` dict. -/
def EventData.empty : EventData :=
  ⟨none, none, none, none, none, none, none, none, none⟩

/-- `StreamEvent` dataclass (the unused `metadata` field, always `None` in
the server, is omitted). -/
structure StreamEvent where
  event_type : EventType
  stream_id : String
  timestamp : ℚ
  data : EventData

/-- `StreamFilter` dataclass; every field defaults to `None` in Python,
modelled by `Option`. -/
structure StreamFilter where
  architectures : Option (List String)
  agents : Option (List String)
  event_types : Option (List EventType)
  quality_threshold : Option Int
  chain_id : Option String
deriving DecidableEq, Repr

/-- The filter with every field unset (`StreamFilter()` with all defaults). -/
def StreamFilter.empty : StreamFilter := ⟨none, none, none, none, none⟩

/-- Python truthiness of an optional list (`if f.architectures:`):
`None` and `[]` are falsy. -/
def truthyList {α : Type} : Option (List α) → Bool
  | some (_ :: _) => true
  | _ => false

/-- Python truthiness of an optional string (`if f.chain_id:`):
`None` and `""` are falsy. -/
def truthyStr : Option String → Bool
  | some s => !(s = "")
  | none => false

/-- Python truthiness of an optional number (`if f.quality_threshold:`):
`None` and `0` are falsy. -/
def truthyInt : Option Int → Bool
  | some n => !(n = 0)
  | none => false

/-- Membership of an optional value in a list (`event.data.get("architecture")
not in f.architectures`): Python's `None` is not equal to any string, so an
absent field is never a member. -/
def optMem {α : Type} [DecidableEq α] : Option α → List α → Bool
  | some a, l => a ∈ l
  | none, _ => false

/-- Python's `a or b` on optional strings (`event.data.get("agent") or
event.data.get("submitter")`): returns `a` unless it is falsy (`None` or
`""`), in which case it returns `b` verbatim. -/
def pyOrStr (a b : Option String) : Option String :=
  if a = none ∨ a = some "" then b else a

/-- One iteration of the `for f in filters` loop body of
`_event_matches_filters`: `true` iff none of the five `continue` guards
fires, i.e. the event survives every declared (truthy) constraint of `f`. -/
def filterMatches (event : StreamEvent) (f : StreamFilter) : Bool :=
  (!truthyList f.event_types || event.event_type ∈ f.event_types.getD []) &&
  (!truthyList f.architectures ||
    optMem event.data.architecture (f.architectures.getD [])) &&
  (!truthyList f.agents ||
    optMem (pyOrStr event.data.agent event.data.submitter) (f.agents.getD [])) &&
  (!truthyInt f.quality_threshold ||
    !(event.data.quality_score.getD 0 < f.quality_threshold.getD 0)) &&
  (!truthyStr f.chain_id || event.data.chain_id = f.chain_id)

/-- `ProofStreamingServer._event_matches_filters`: empty filter list matches
everything; otherwise the first filter surviving all its guards returns
`True`, and `False` is returned after the loop. -/
def eventMatchesFilters (event : StreamEvent) (filters : List StreamFilter) : Bool :=
  filters.isEmpty || filters.any (filterMatches event)

/-- One entry of `active_streams`: the fields of the dict stored by
`_handle_create_stream` (the `id` field duplicates the key and the
`subscribers` list is never read or written afterwards; both omitted). -/
structure StreamRec where
  creator : String
  spec : Json
  created_at : ℚ
  event_count : Nat

/-- The mutable state of a `ProofStreamingServer`:
`connected_clients` is the key list of the client-id → websocket dict;
`client_subscriptions` is the `defaultdict(list)` as an insertion-ordered
association list; `active_streams` likewise.  `total_events` and
`events_per_second` are the two metrics the handlers maintain beyond pure
lengths (the `connected_clients` / `active_streams` metric entries are the
lengths of the corresponding tables and are not duplicated here);
`events_since_last_update` / `last_metrics_update` are the performance
counters used by the metrics loop. -/
structure ServerState where
  connected_clients : List String
  client_subscriptions : List (String × List StreamFilter)
  active_streams : List (String × StreamRec)
  total_events : Nat
  events_per_second : ℚ
  events_since_last_update : Nat
  last_metrics_update : ℚ

/-- The state of a freshly constructed server. -/
def ServerState.initial : ServerState :=
  ⟨[], [], [], 0, 0, 0, 0⟩

/-- The outbound messages `_send_to_client` is ever given, one constructor
per `"type"` value, carrying the fields the server fills in. -/
inductive OutMessage where
  | connection_established (client_id : String) (active_streams : Nat)
  | pong (timestamp : ℚ)
  | error (message : String)
  | subscription_confirmed (filter : StreamFilter) (subscription_id : Nat)
  | subscription_error (message : String)
  | unsubscription_confirmed (subscription_id : Int)
  | all_subscriptions_cleared
  | stream_created (stream_id : String) (spec : Json)
  | stream_creation_error (message : String)
  | proof_submitted (stream_id : String) (status : String)
  | proof_submission_error (message : String)
  | stream_event (event : StreamEvent) (timestamp : ℚ)

/-- `ProofStreamingServer._send_to_client`.  `sendOk` is the outcome of
`websocket.send`: when it raises, the client is deleted from
`connected_clients` (and from nothing else) and no message is delivered.
A client absent from the table is silently skipped.  The returned list
holds the messages actually delivered. -/
def sendToClient (st : ServerState) (cid : String) (m : OutMessage)
    (sendOk : Bool) : ServerState × List (String × OutMessage) :=
  if cid ∈ st.connected_clients then
    if sendOk then (st, [(cid, m)])
    else ({st with connected_clients := st.connected_clients.erase cid}, [])
  else (st, [])

/-- The `for client_id, filters in self.client_subscriptions.items()` loop
of `_emit_event`: `entries` is the snapshot of the table being iterated
(sends never mutate it), `outs` the deliveries so far. -/
def emitLoop (event : StreamEvent) (t : ℚ) (sendOk : String → Bool) :
    List (String × List StreamFilter) → ServerState →
    List (String × OutMessage) → ServerState × List (String × OutMessage)
  | [], st, outs => (st, outs)
  | entry :: rest, st, outs =>
    if eventMatchesFilters event entry.2 then
      let r := sendToClient st entry.1 (.stream_event event t) (sendOk entry.1)
      emitLoop event t sendOk rest r.1 (outs ++ r.2)
    else
      emitLoop event t sendOk rest st outs

/-- `ProofStreamingServer._emit_event`: bumps `total_events` and the
since-last-tick counter, then walks `client_subscriptions.items()` in
order, delivering the `stream_event` envelope to every client whose filter
list matches.  (The registered `event_handlers` lists are empty unless
`add_event_handler` was called; external callbacks are outside this
model.)  `sendOk` gives each client's send outcome. -/
def emitEvent (st : ServerState) (event : StreamEvent) (t : ℚ)
    (sendOk : String → Bool) : ServerState × List (String × OutMessage) :=
  let st0 := {st with total_events := st.total_events + 1,
                      events_since_last_update := st.events_since_last_update + 1}
  emitLoop event t sendOk st0.client_subscriptions st0 []

/-- The connection-accept prefix of `ProofStreamingServer._handle_client`:
stores the new client id in `connected_clients` and sends the
`connection_established` welcome.  Nothing is written to
`client_subscriptions`. -/
def handleClientConnect (st : ServerState) (cid : String) (sendOk : Bool) :
    ServerState × List (String × OutMessage) :=
  let st1 := {st with connected_clients :=
    if cid ∈ st.connected_clients then st.connected_clients
    else st.connected_clients ++ [cid]}
  sendToClient st1 cid
    (.connection_established cid st1.active_streams.length) sendOk

/-- The `finally` block of `_handle_client`, run when the per-connection
reader loop terminates (transport close, graceful or abrupt): deletes the
client from both `connected_clients` and `client_subscriptions`. -/
def clientCleanup (st : ServerState) (cid : String) : ServerState :=
  {st with connected_clients := st.connected_clients.erase cid,
           client_subscriptions := eraseKey st.client_subscriptions cid}

/-- Body of `_handle_subscription` after the `StreamFilter` was built
without raising: `self.client_subscriptions[client_id].append(stream_filter)`
(the `defaultdict` creates a fresh empty entry for an unknown key) followed
by the `subscription_confirmed` reply carrying
`len(self.client_subscriptions[client_id]) - 1`. -/
def handleSubscriptionTyped (st : ServerState) (cid : String)
    (f : StreamFilter) (sendOk : Bool) :
    ServerState × List (String × OutMessage) :=
  let subs := (getKey st.client_subscriptions cid).getD []
  let newSubs := subs ++ [f]
  let newTable := setKey st.client_subscriptions cid newSubs
  let st1 := {st with client_subscriptions := newTable}
  sendToClient st1 cid (.subscription_confirmed f (newSubs.length - 1)) sendOk

/-- `_handle_unsubscription` with a well-typed (integer or absent)
`subscription_id`.  If the client has no entry in `client_subscriptions`
the whole body is skipped (no reply).  Otherwise an in-range id deletes
exactly that list entry and confirms it; an absent or out-of-range id
clears the whole list and reports `all_subscriptions_cleared`. -/
def handleUnsubscriptionTyped (st : ServerState) (cid : String)
    (subscription_id : Option Int) (sendOk : Bool) :
    ServerState × List (String × OutMessage) :=
  match getKey st.client_subscriptions cid with
  | none => (st, [])
  | some subs =>
    match subscription_id with
    | some i =>
      if 0 ≤ i ∧ i < (subs.length : Int) then
        let newTable := setKey st.client_subscriptions cid (subs.eraseIdx i.toNat)
        let st1 := {st with client_subscriptions := newTable}
        sendToClient st1 cid (.unsubscription_confirmed i) sendOk
      else
        let newTable := setKey st.client_subscriptions cid []
        let st1 := {st with client_subscriptions := newTable}
        sendToClient st1 cid .all_subscriptions_cleared sendOk
    | none =>
      let newTable := setKey st.client_subscriptions cid []
      let st1 := {st with client_subscriptions := newTable}
      sendToClient st1 cid .all_subscriptions_cleared sendOk

/-- The id generated by `_handle_create_stream`:
`hashlib.sha256(f"...".encode()).hexdigest()` applied to
`f"\x7bclient_id\x7d_\x7bstream_spec\x7d_\x7btime.time()\x7d"`.  SHA-256
is the `hash` parameter; the float rendering of the timestamp is
`toString`. -/
def createKeyString (cid : String) (spec : Json) (t : ℚ) : String :=
  cid ++ "_" ++ pyShow spec ++ "_" ++ toString t

/-- The stream id: SHA-256 hex digest (the `hash` parameter) of the key
string above. -/
def createStreamId (hash : String → String) (cid : String) (spec : Json)
    (t : ℚ) : String :=
  hash (createKeyString cid spec t)

/-- `_handle_create_stream`: computes the id, stores the stream record
(dict assignment, so an existing record under the same id is overwritten),
replies `stream_created` to the creator, then broadcasts a
`STREAM_CREATED` event with data `creator`/`spec`. -/
def handleCreateStream (hash : String → String) (st : ServerState)
    (cid : String) (spec : Json) (t : ℚ) (sendOk : String → Bool) :
    ServerState × List (String × OutMessage) :=
  let stream_id := createStreamId hash cid spec t
  let newStreams := setKey st.active_streams stream_id ⟨cid, spec, t, 0⟩
  let st1 := {st with active_streams := newStreams}
  let r1 := sendToClient st1 cid (.stream_created stream_id spec) (sendOk cid)
  let r2 := emitEvent r1.1
    ⟨.STREAM_CREATED, stream_id, t,
      {EventData.empty with creator := some cid, spec := some spec}⟩ t sendOk
  (r2.1, r1.2 ++ r2.2)

/-- `_handle_proof_submission` with a string `stream_id`.  An unregistered
id raises `ValueError(f"Stream ... not found")`, caught by the handler's
own `except` into a `proof_submission_error` reply, with no other effect.
A registered id first broadcasts the `PROOF_SUBMITTED` event (carrying the
16-hex-digit fingerprints of `str(proof_data)` / `str(public_inputs)`, the
submitter, and the declared architecture defaulting to `"unknown"`), then
increments the stream's `event_count`, then replies success. -/
def handleProofSubmission (hash : String → String) (st : ServerState)
    (cid : String) (stream_id : String) (proof_data : Option Json)
    (public_inputs : Option Json) (architecture : Option String) (t : ℚ)
    (sendOk : String → Bool) : ServerState × List (String × OutMessage) :=
  if (getKey st.active_streams stream_id).isSome then
    let ev : StreamEvent :=
      ⟨.PROOF_SUBMITTED, stream_id, t,
        {EventData.empty with
          submitter := some cid,
          proof_hash := some ((hash (pyShowOpt proof_data)).take 16),
          input_hash := some ((hash (pyShowOpt public_inputs)).take 16),
          architecture := some (architecture.getD "unknown")}⟩
    let r1 := emitEvent st ev t sendOk
    let newStreams := updateKey r1.1.active_streams stream_id
        (fun rec => {rec with event_count := rec.event_count + 1})
    let st2 := {r1.1 with active_streams := newStreams}
    let r2 := sendToClient st2 cid (.proof_submitted stream_id "accepted") (sendOk cid)
    (r2.1, r1.2 ++ r2.2)
  else
    sendToClient st cid
      (.proof_submission_error ("Stream " ++ stream_id ++ " not found"))
      (sendOk cid)

/-- One iteration of `_update_metrics_loop` waking at time `t`:
`events_per_second` is recomputed only when the elapsed time is positive;
the since-last-tick counter and the tick timestamp are reset
unconditionally. -/
def metricsTick (st : ServerState) (t : ℚ) : ServerState :=
  let delta := t - st.last_metrics_update
  let st1 :=
    if 0 < delta then
      {st with events_per_second := (st.events_since_last_update : ℚ) / delta}
    else st
  {st1 with last_metrics_update := t, events_since_last_update := 0}

/-- `filter_data.get(key)` for the list-of-strings filter fields
(`architectures`, `agents`).  Faithful on well-typed payloads: a JSON
list keeps its string elements, an absent key or JSON `null` imposes no
constraint (Python stores `None`, which is falsy exactly like an unset
field everywhere the server reads it). -/
def getStrList (j : Option Json) : Option (List String) :=
  match j with
  | some (.arr l) =>
      some (l.filterMap fun x => match x with | .str s => some s | _ => none)
  | _ => none

/-- `filter_data.get("quality_threshold")` on a well-typed payload. -/
def getIntOpt (j : Option Json) : Option Int :=
  match j with
  | some (.int n) => some n
  | _ => none

/-- `filter_data.get("chain_id")` on a well-typed payload. -/
def getStrOpt (j : Option Json) : Option String :=
  match j with
  | some (.str s) => some s
  | _ => none

/-- The list comprehension `[EventType(et) for et in ...]` over an already
materialised sequence of items: Python raises `ValueError` at the first
item that is not a valid `EventType` value. -/
def parseEventTypeList : List Json → Except String (List EventType)
  | [] => .ok []
  | j :: rest =>
    match j with
    | .str s =>
      match EventType.ofString s with
      | some et => (parseEventTypeList rest).map (fun l => et :: l)
      | none => .error ("'" ++ s ++ "' is not a valid EventType")
    | other => .error (pyRepr other ++ " is not a valid EventType")

/-- `[EventType(et) for et in filter_data.get("event_types", [])]`: an
absent key iterates the default `[]`; a JSON list iterates its elements; a
string iterates its one-character substrings; a dict iterates its keys;
`null`, numbers and booleans are not iterable and raise `TypeError`. -/
def parseEventTypes : Option Json → Except String (List EventType)
  | none => .ok []
  | some (.arr l) => parseEventTypeList l
  | some (.str s) =>
      parseEventTypeList (s.data.map fun c => .str (String.singleton c))
  | some (.obj fields) => parseEventTypeList (fields.map fun p => .str p.1)
  | some .null => .error "'NoneType' object is not iterable"
  | some (.bool _) => .error "'bool' object is not iterable"
  | some (.int _) => .error "'int' object is not iterable"

/-- The `StreamFilter(...)` construction in `_handle_subscription`: every
keyword argument is evaluated before the dataclass is built, and the only
fallible evaluation is the `event_types` comprehension (a non-dict
`filter` payload faults at the first `.get`).  On success the whole filter
is returned; on fault nothing is built. -/
def parseStreamFilter (fj : Json) : Except String StreamFilter :=
  match fj with
  | .obj _ =>
    match parseEventTypes (fj.getField "event_types") with
    | .error m => .error m
    | .ok ets =>
      .ok ⟨getStrList (fj.getField "architectures"),
           getStrList (fj.getField "agents"),
           some ets,
           getIntOpt (fj.getField "quality_threshold"),
           getStrOpt (fj.getField "chain_id")⟩
  | _ => .error ("'" ++ pyTypeName fj ++ "' object has no attribute 'get'")

/-- `_handle_subscription`: builds the `StreamFilter` from
`data.get("filter", \x7b\x7d)` inside its own `try`; a fault during
construction is answered with `subscription_error` and nothing is
appended; otherwise the filter is appended and confirmed. -/
def handleSubscriptionJson (st : ServerState) (cid : String) (data : Json)
    (sendOk : Bool) : ServerState × List (String × OutMessage) :=
  match parseStreamFilter ((data.getField "filter").getD (.obj [])) with
  | .error m => sendToClient st cid (.subscription_error m) sendOk
  | .ok f => handleSubscriptionTyped st cid f sendOk

/-- `_handle_unsubscription` on a raw frame.  The handler has no `try` of
its own: a `subscription_id` that is neither absent, `null`, an integer
nor a boolean (Python `bool` is an `int`) makes `0 <= subscription_id`
raise `TypeError`, which escapes to the dispatcher's generic handler —
modelled as `Except.error`.  A client with no subscription entry skips the
whole body. -/
def handleUnsubscriptionJson (st : ServerState) (cid : String) (data : Json)
    (sendOk : Bool) :
    Except String (ServerState × List (String × OutMessage)) :=
  match getKey st.client_subscriptions cid with
  | none => .ok (st, [])
  | some _ =>
    match data.getField "subscription_id" with
    | none => .ok (handleUnsubscriptionTyped st cid none sendOk)
    | some .null => .ok (handleUnsubscriptionTyped st cid none sendOk)
    | some (.int i) => .ok (handleUnsubscriptionTyped st cid (some i) sendOk)
    | some (.bool b) =>
        .ok (handleUnsubscriptionTyped st cid (some (if b then 1 else 0)) sendOk)
    | some j =>
        .error ("'<=' not supported between instances of 'int' and '"
          ++ pyTypeName j ++ "'")

/-- `_handle_create_stream` on a raw frame: `data.get("stream_spec", \x7b\x7d)`. -/
def handleCreateStreamJson (hash : String → String) (st : ServerState)
    (cid : String) (data : Json) (t : ℚ) (sendOk : String → Bool) :
    ServerState × List (String × OutMessage) :=
  handleCreateStream hash st cid ((data.getField "stream_spec").getD (.obj []))
    t sendOk

/-- `_handle_proof_submission` on a raw frame.  A non-string
`stream_id` is never a key of `active_streams` (whose keys are hex
strings), so it takes the not-found path with the f-string rendering of
the value — except unhashable containers, whose membership test raises
`TypeError`, caught by the handler's own `except` into the same typed
error reply.  A non-string `architecture` is modelled as absent (it can
never equal a string in a filter's list). -/
def handleProofSubmissionJson (hash : String → String) (st : ServerState)
    (cid : String) (data : Json) (t : ℚ) (sendOk : String → Bool) :
    ServerState × List (String × OutMessage) :=
  match data.getField "stream_id" with
  | some (.arr _) =>
      sendToClient st cid (.proof_submission_error "unhashable type: 'list'")
        (sendOk cid)
  | some (.obj _) =>
      sendToClient st cid (.proof_submission_error "unhashable type: 'dict'")
        (sendOk cid)
  | some (.str s) =>
      handleProofSubmission hash st cid s (data.getField "proof_data")
        (data.getField "public_inputs")
        (getStrOpt (data.getField "architecture")) t sendOk
  | other =>
      sendToClient st cid
        (.proof_submission_error ("Stream " ++ pyShowOpt other ++ " not found"))
        (sendOk cid)

/-- `_handle_client_message`: an undecodable frame is answered with
`error "Invalid JSON format"` (the `json.JSONDecodeError` arm); a decoded
frame is dispatched on `data.get("type")`, an unrecognised type gets the
`error "Unknown message type: ..."` reply, and any fault escaping a
handler is caught by the final `except Exception` into a generic `error`
reply with the exception text.  A non-dict frame faults at `data.get` and
takes that same generic arm. -/
def handleClientMessage (hash : String → String) (st : ServerState)
    (cid : String) (frame : Option Json) (t : ℚ) (sendOk : String → Bool) :
    ServerState × List (String × OutMessage) :=
  match frame with
  | none => sendToClient st cid (.error "Invalid JSON format") (sendOk cid)
  | some data =>
    match data with
    | .obj _ =>
      match data.getField "type" with
      | some (.str "subscribe") => handleSubscriptionJson st cid data (sendOk cid)
      | some (.str "unsubscribe") =>
        match handleUnsubscriptionJson st cid data (sendOk cid) with
        | .ok r => r
        | .error m => sendToClient st cid (.error m) (sendOk cid)
      | some (.str "create_stream") => handleCreateStreamJson hash st cid data t sendOk
      | some (.str "submit_proof") => handleProofSubmissionJson hash st cid data t sendOk
      | some (.str "ping") => sendToClient st cid (.pong t) (sendOk cid)
      | other =>
          sendToClient st cid
            (.error ("Unknown message type: " ++ pyShowOpt other)) (sendOk cid)
    | _ =>
        sendToClient st cid
          (.error ("'" ++ pyTypeName data ++ "' object has no attribute 'get'"))
          (sendOk cid)

/-- A sequence of `create_stream` requests, each described by
`(client_id, stream_spec, time.time())`, processed in order with all
sends succeeding; returns the final state and the ids handed out, in
order. -/
def runCreateStreams (hash : String → String) :
    ServerState → List (String × Json × ℚ) → ServerState × List String
  | st, [] => (st, [])
  | st, c :: rest =>
    let r := handleCreateStream hash st c.1 c.2.1 c.2.2 (fun _ => true)
    let rr := runCreateStreams hash r.1 rest
    (rr.1, createStreamId hash c.1 c.2.1 c.2.2 :: rr.2)

/-- §4.4 of the specification, read literally as the claim does: a single
filter matches when every constraint it *declares* is satisfied, where a
set constraint counts as declared when non-empty, and `quality_threshold`
and `chain_id` count as declared whenever they are set — including
`quality_threshold = 0` and `chain_id = ""`. -/
def claimFilterMatches (f : StreamFilter) (e : StreamEvent) : Bool :=
  (match f.event_types with
   | some (k :: ks) => decide (e.event_type ∈ k :: ks)
   | _ => true) &&
  (match f.architectures with
   | some (a :: a2) => optMem e.data.architecture (a :: a2)
   | _ => true) &&
  (match f.agents with
   | some (a :: a2) => optMem (pyOrStr e.data.agent e.data.submitter) (a :: a2)
   | _ => true) &&
  (match f.quality_threshold with
   | some q => decide (q ≤ e.data.quality_score.getD 0)
   | none => true) &&
  (match f.chain_id with
   | some c => decide (e.data.chain_id = some c)
   | none => true)

/-- The declarative AND-of-declared-constraints reading that the code
actually implements: a constraint is active exactly when its field is
truthy (non-empty list, nonzero threshold, non-empty chain id). -/
def SatisfiesAll (f : StreamFilter) (e : StreamEvent) : Prop :=
  (truthyList f.event_types = true → e.event_type ∈ f.event_types.getD []) ∧
  (truthyList f.architectures = true →
    optMem e.data.architecture (f.architectures.getD []) = true) ∧
  (truthyList f.agents = true →
    optMem (pyOrStr e.data.agent e.data.submitter) (f.agents.getD []) = true) ∧
  (truthyInt f.quality_threshold = true →
    f.quality_threshold.getD 0 ≤ e.data.quality_score.getD 0) ∧
  (truthyStr f.chain_id = true → e.data.chain_id = f.chain_id)

/-! ### Lemmas about filter matching -/

theorem bool_guard_iff (g c : Bool) : (!g || c) = true ↔ (g = true → c = true) := by
  cases g <;> cases c <;> simp

/-- The loop body of `_event_matches_filters` decides exactly the
conjunction of the declared (truthy) constraints. -/
theorem filterMatches_iff (e : StreamEvent) (f : StreamFilter) :
    filterMatches e f = true ↔ SatisfiesAll f e := by
  simp only [filterMatches, Bool.and_eq_true, bool_guard_iff, SatisfiesAll,
    decide_eq_true_eq, Bool.not_eq_true', decide_eq_false_iff_not, not_lt]
  tauto

/-- `_event_matches_filters` decides: empty list, or some filter whose
declared constraints all hold. -/
theorem eventMatchesFilters_iff (e : StreamEvent) (fs : List StreamFilter) :
    eventMatchesFilters e fs = true ↔
      fs = [] ∨ ∃ f ∈ fs, SatisfiesAll f e := by
  simp [eventMatchesFilters, List.any_eq_true, filterMatches_iff,
    List.isEmpty_iff]

/-! ### Lemmas about `sendToClient` -/

theorem sendToClient_success {st : ServerState} {cid : String}
    (m : OutMessage) (h : cid ∈ st.connected_clients) :
    sendToClient st cid m true = (st, [(cid, m)]) := by
  simp [sendToClient, h]

theorem sendToClient_fail {st : ServerState} {cid : String}
    (m : OutMessage) (h : cid ∈ st.connected_clients) :
    sendToClient st cid m false =
      ({st with connected_clients := st.connected_clients.erase cid}, []) := by
  simp [sendToClient, h]

theorem sendToClient_absent {st : ServerState} {cid : String}
    (m : OutMessage) (ok : Bool) (h : cid ∉ st.connected_clients) :
    sendToClient st cid m ok = (st, []) := by
  simp [sendToClient, h]

theorem sendToClient_subscriptions (st : ServerState) (cid : String)
    (m : OutMessage) (ok : Bool) :
    (sendToClient st cid m ok).1.client_subscriptions =
      st.client_subscriptions := by
  by_cases h : cid ∈ st.connected_clients <;> cases ok <;>
    simp [sendToClient, h]

theorem sendToClient_streams (st : ServerState) (cid : String)
    (m : OutMessage) (ok : Bool) :
    (sendToClient st cid m ok).1.active_streams = st.active_streams := by
  by_cases h : cid ∈ st.connected_clients <;> cases ok <;>
    simp [sendToClient, h]

theorem sendToClient_total (st : ServerState) (cid : String)
    (m : OutMessage) (ok : Bool) :
    (sendToClient st cid m ok).1.total_events = st.total_events := by
  by_cases h : cid ∈ st.connected_clients <;> cases ok <;>
    simp [sendToClient, h]

theorem sendToClient_since (st : ServerState) (cid : String)
    (m : OutMessage) (ok : Bool) :
    (sendToClient st cid m ok).1.events_since_last_update =
      st.events_since_last_update := by
  by_cases h : cid ∈ st.connected_clients <;> cases ok <;>
    simp [sendToClient, h]

theorem sendToClient_connected_subset (st : ServerState) (cid : String)
    (m : OutMessage) (ok : Bool) :
    (sendToClient st cid m ok).1.connected_clients ⊆ st.connected_clients := by
  by_cases h : cid ∈ st.connected_clients <;> cases ok <;>
    simp [sendToClient, h, List.erase_subset]

theorem sendToClient_out_sub {st : ServerState} {cid : String}
    {m : OutMessage} {ok : Bool} {d : String × OutMessage}
    (h : d ∈ (sendToClient st cid m ok).2) :
    d = (cid, m) ∧ cid ∈ st.connected_clients := by
  by_cases hc : cid ∈ st.connected_clients <;> cases ok <;>
    simp_all [sendToClient]

theorem mem_connected_sendToClient {st : ServerState} {c cid : String}
    (m : OutMessage) {ok : Bool} (hne : ok = false → c ≠ cid)
    (hc : cid ∈ st.connected_clients) :
    cid ∈ (sendToClient st c m ok).1.connected_clients := by
  cases ok with
  | true => by_cases hcc : c ∈ st.connected_clients <;> simp [sendToClient, hcc, hc]
  | false =>
    have hne' : cid ≠ c := fun h => hne rfl h.symm
    by_cases hcc : c ∈ st.connected_clients <;> simp [sendToClient, hcc, hc]
    exact (List.mem_erase_of_ne hne').mpr hc

/-! ### Lemmas about the broadcast loop -/

theorem emitLoop_subscriptions (e : StreamEvent) (t : ℚ) (ok : String → Bool)
    (entries : List (String × List StreamFilter)) :
    ∀ st outs,
      (emitLoop e t ok entries st outs).1.client_subscriptions =
        st.client_subscriptions := by
  induction entries with
  | nil => intro st outs; rfl
  | cons en tl ih =>
    intro st outs
    simp only [emitLoop]
    split
    · rw [ih, sendToClient_subscriptions]
    · rw [ih]

theorem emitLoop_streams (e : StreamEvent) (t : ℚ) (ok : String → Bool)
    (entries : List (String × List StreamFilter)) :
    ∀ st outs,
      (emitLoop e t ok entries st outs).1.active_streams =
        st.active_streams := by
  induction entries with
  | nil => intro st outs; rfl
  | cons en tl ih =>
    intro st outs
    simp only [emitLoop]
    split
    · rw [ih, sendToClient_streams]
    · rw [ih]

theorem emitLoop_total (e : StreamEvent) (t : ℚ) (ok : String → Bool)
    (entries : List (String × List StreamFilter)) :
    ∀ st outs,
      (emitLoop e t ok entries st outs).1.total_events = st.total_events := by
  induction entries with
  | nil => intro st outs; rfl
  | cons en tl ih =>
    intro st outs
    simp only [emitLoop]
    split
    · rw [ih, sendToClient_total]
    · rw [ih]

theorem emitLoop_since (e : StreamEvent) (t : ℚ) (ok : String → Bool)
    (entries : List (String × List StreamFilter)) :
    ∀ st outs,
      (emitLoop e t ok entries st outs).1.events_since_last_update =
        st.events_since_last_update := by
  induction entries with
  | nil => intro st outs; rfl
  | cons en tl ih =>
    intro st outs
    simp only [emitLoop]
    split
    · rw [ih, sendToClient_since]
    · rw [ih]

theorem emitLoop_connected_subset (e : StreamEvent) (t : ℚ)
    (ok : String → Bool) (entries : List (String × List StreamFilter)) :
    ∀ st outs,
      (emitLoop e t ok entries st outs).1.connected_clients ⊆
        st.connected_clients := by
  induction entries with
  | nil => intro st outs; exact fun a h => h
  | cons en tl ih =>
    intro st outs
    simp only [emitLoop]
    split
    · exact (ih _ _).trans (sendToClient_connected_subset _ _ _ _)
    · exact ih _ _

theorem emitLoop_mem_connected {e : StreamEvent} {t : ℚ}
    {ok : String → Bool} {cid : String} (hok : ok cid = true)
    (entries : List (String × List StreamFilter)) :
    ∀ st outs, cid ∈ st.connected_clients →
      cid ∈ (emitLoop e t ok entries st outs).1.connected_clients := by
  induction entries with
  | nil => intro st outs h; exact h
  | cons en tl ih =>
    intro st outs h
    simp only [emitLoop]
    split
    · exact ih _ _ (mem_connected_sendToClient _
        (fun hf hc => by rw [hc, hok] at hf; cases hf) h)
    · exact ih _ _ h

theorem emitLoop_outs_mono {e : StreamEvent} {t : ℚ} {ok : String → Bool}
    {d : String × OutMessage} (entries : List (String × List StreamFilter)) :
    ∀ st outs, d ∈ outs → d ∈ (emitLoop e t ok entries st outs).2 := by
  induction entries with
  | nil => intro st outs h; exact h
  | cons en tl ih =>
    intro st outs h
    simp only [emitLoop]
    split
    · exact ih _ _ (List.mem_append_left _ h)
    · exact ih _ _ h

/-- Shape of the deliveries produced by the broadcast loop: every message
not already in the accumulator goes to a client that has an entry in the
iterated table whose filters match, is the `stream_event` envelope of the
broadcast event, and is addressed to a client that was connected when the
loop started. -/
theorem emitLoop_out_shape {e : StreamEvent} {t : ℚ} {ok : String → Bool}
    {d : String × OutMessage} (entries : List (String × List StreamFilter)) :
    ∀ st outs, d ∈ (emitLoop e t ok entries st outs).2 →
      d ∈ outs ∨
        (d.2 = .stream_event e t ∧ d.1 ∈ st.connected_clients ∧
          ∃ fl, (d.1, fl) ∈ entries ∧ eventMatchesFilters e fl = true) := by
  induction entries with
  | nil => intro st outs h; exact Or.inl h
  | cons en tl ih =>
    intro st outs h
    simp only [emitLoop] at h
    split at h
    · rcases ih _ _ h with hin | ⟨hmsg, hconn, fl, hfl, hm⟩
      · rcases List.mem_append.mp hin with hout | hsent
        · exact Or.inl hout
        · obtain ⟨rfl, hc⟩ := sendToClient_out_sub hsent
          exact Or.inr ⟨rfl, hc, en.2, by simp, by assumption⟩
      · exact Or.inr ⟨hmsg,
          sendToClient_connected_subset _ _ _ _ hconn,
          fl, List.mem_cons_of_mem _ hfl, hm⟩
    · rcases ih _ _ h with hin | ⟨hmsg, hconn, fl, hfl, hm⟩
      · exact Or.inl hin
      · exact Or.inr ⟨hmsg, hconn, fl, List.mem_cons_of_mem _ hfl, hm⟩

/-- A connected client with a matching subscription entry whose send
succeeds receives the broadcast. -/
theorem emitLoop_delivers {e : StreamEvent} {t : ℚ} {ok : String → Bool}
    {cid : String} {fl : List StreamFilter} (hok : ok cid = true)
    (entries : List (String × List StreamFilter)) :
    ∀ st outs, cid ∈ st.connected_clients → (cid, fl) ∈ entries →
      eventMatchesFilters e fl = true →
      (cid, OutMessage.stream_event e t) ∈
        (emitLoop e t ok entries st outs).2 := by
  induction entries with
  | nil => intro st outs _ hmem _; cases hmem
  | cons en tl ih =>
    intro st outs hc hmem hm
    rcases List.mem_cons.mp hmem with rfl | htl
    · simp only [emitLoop, hm, if_true]
      rw [hok, sendToClient_success _ hc]
      exact emitLoop_outs_mono tl _ _
        (List.mem_append_right _ (List.mem_singleton.mpr rfl))
    · simp only [emitLoop]
      split
      · exact ih _ _ (mem_connected_sendToClient _
          (fun hf hcc => by rw [hcc, hok] at hf; cases hf) hc) htl hm
      · exact ih _ _ hc htl hm

/-! ### Lemmas about the association-list dictionary operations -/

theorem getKey_setKey_self {α : Type} (l : List (String × α)) (k : String)
    (v : α) : getKey (setKey l k v) k = some v := by
  induction l with
  | nil => simp [setKey, getKey]
  | cons hd tl ih =>
    by_cases h : hd.1 = k <;> simp [setKey, getKey, h, ih]

theorem getKey_setKey_ne {α : Type} (l : List (String × α)) {k k' : String}
    (v : α) (h : k' ≠ k) : getKey (setKey l k v) k' = getKey l k' := by
  have hkk : ¬k = k' := fun hh => h hh.symm
  induction l with
  | nil => simp [setKey, getKey, hkk]
  | cons hd tl ih =>
    by_cases hh : hd.1 = k
    · simp [setKey, getKey, hh, hkk]
    · by_cases hh' : hd.1 = k' <;> simp [setKey, getKey, hh, hh', h, ih]

theorem getKey_updateKey_self {α : Type} (l : List (String × α)) (k : String)
    (f : α → α) : getKey (updateKey l k f) k = (getKey l k).map f := by
  induction l with
  | nil => simp [updateKey, getKey]
  | cons hd tl ih =>
    by_cases h : hd.1 = k <;> simp [updateKey, getKey, h, ih]

theorem getKey_updateKey_ne {α : Type} (l : List (String × α)) {k k' : String}
    (f : α → α) (h : k' ≠ k) : getKey (updateKey l k f) k' = getKey l k' := by
  have hkk : ¬k = k' := fun hh => h hh.symm
  induction l with
  | nil => simp [updateKey, getKey]
  | cons hd tl ih =>
    by_cases hh : hd.1 = k
    · simp [updateKey, getKey, hh, hkk]
    · by_cases hh' : hd.1 = k' <;> simp [updateKey, getKey, hh, hh', h, ih]

theorem getKey_eq_none {α : Type} (l : List (String × α)) (k : String)
    (h : k ∉ l.map Prod.fst) : getKey l k = none := by
  induction l with
  | nil => rfl
  | cons hd tl ih =>
    simp only [List.map_cons, List.mem_cons, not_or] at h
    simp [getKey, (show ¬hd.1 = k from fun hh => h.1 hh.symm), ih h.2]

theorem getKey_eraseKey_self {α : Type} (l : List (String × α)) (k : String)
    (hnd : (l.map Prod.fst).Nodup) : getKey (eraseKey l k) k = none := by
  induction l with
  | nil => simp [eraseKey, getKey]
  | cons hd tl ih =>
    simp only [List.map_cons, List.nodup_cons] at hnd
    by_cases h : hd.1 = k
    · subst h
      simp only [eraseKey, if_pos rfl]
      exact getKey_eq_none tl hd.1 hnd.1
    · simp [eraseKey, getKey, h, ih hnd.2]

theorem mem_keys_setKey {α : Type} (l : List (String × α)) (k a : String)
    (v : α) :
    a ∈ (setKey l k v).map Prod.fst ↔ a ∈ l.map Prod.fst ∨ a = k := by
  induction l with
  | nil => simp [setKey]
  | cons hd tl ih =>
    by_cases h : hd.1 = k
    · subst h
      simp [setKey]
      tauto
    · simp [setKey, h, ih]
      tauto

theorem nodup_keys_setKey {α : Type} (l : List (String × α)) (k : String)
    (v : α) (hnd : (l.map Prod.fst).Nodup) :
    ((setKey l k v).map Prod.fst).Nodup := by
  induction l with
  | nil => simp [setKey]
  | cons hd tl ih =>
    simp only [List.map_cons, List.nodup_cons] at hnd
    by_cases h : hd.1 = k
    · subst h
      simpa [setKey] using hnd
    · have hmem : hd.1 ∉ (setKey tl k v).map Prod.fst := by
        intro hm
        rcases (mem_keys_setKey tl k hd.1 v).mp hm with hin | heq
        · exact hnd.1 hin
        · exact h heq
      have h2 := ih hnd.2
      simp only [setKey, if_neg h, List.map_cons, List.nodup_cons]
      exact ⟨fun hm => hmem (by simpa using hm), h2⟩

/-! ### Lemmas about `emitEvent` -/

theorem emitEvent_subscriptions (st : ServerState) (e : StreamEvent) (t : ℚ)
    (ok : String → Bool) :
    (emitEvent st e t ok).1.client_subscriptions = st.client_subscriptions := by
  simp [emitEvent, emitLoop_subscriptions]

theorem emitEvent_streams (st : ServerState) (e : StreamEvent) (t : ℚ)
    (ok : String → Bool) :
    (emitEvent st e t ok).1.active_streams = st.active_streams := by
  simp [emitEvent, emitLoop_streams]

theorem emitEvent_total (st : ServerState) (e : StreamEvent) (t : ℚ)
    (ok : String → Bool) :
    (emitEvent st e t ok).1.total_events = st.total_events + 1 := by
  simp [emitEvent, emitLoop_total]

theorem emitEvent_since (st : ServerState) (e : StreamEvent) (t : ℚ)
    (ok : String → Bool) :
    (emitEvent st e t ok).1.events_since_last_update =
      st.events_since_last_update + 1 := by
  simp [emitEvent, emitLoop_since]

theorem emitEvent_mem_connected {st : ServerState} {e : StreamEvent} {t : ℚ}
    {ok : String → Bool} {cid : String} (hok : ok cid = true)
    (hc : cid ∈ st.connected_clients) :
    cid ∈ (emitEvent st e t ok).1.connected_clients := by
  exact emitLoop_mem_connected hok _ _ _ hc

theorem emitEvent_out_shape {st : ServerState} {e : StreamEvent} {t : ℚ}
    {ok : String → Bool} {d : String × OutMessage}
    (h : d ∈ (emitEvent st e t ok).2) :
    d.2 = .stream_event e t ∧ d.1 ∈ st.connected_clients ∧
      ∃ fl, (d.1, fl) ∈ st.client_subscriptions ∧
        eventMatchesFilters e fl = true := by
  rcases emitLoop_out_shape _ _ _ h with hin | hshape
  · cases hin
  · exact hshape

theorem emitEvent_delivers {st : ServerState} {e : StreamEvent} {t : ℚ}
    {ok : String → Bool} {cid : String} {fl : List StreamFilter}
    (hok : ok cid = true) (hc : cid ∈ st.connected_clients)
    (hmem : (cid, fl) ∈ st.client_subscriptions)
    (hm : eventMatchesFilters e fl = true) :
    (cid, OutMessage.stream_event e t) ∈ (emitEvent st e t ok).2 := by
  exact emitLoop_delivers hok _ _ _ hc hmem hm

/-- A client with no entry in the subscription table receives nothing from
a broadcast. -/
theorem emitEvent_not_subscribed {st : ServerState} {e : StreamEvent}
    {t : ℚ} {ok : String → Bool} {cid : String}
    (h : cid ∉ st.client_subscriptions.map Prod.fst) :
    ∀ m, (cid, m) ∉ (emitEvent st e t ok).2 := by
  intro m hmem
  obtain ⟨-, -, fl, hfl, -⟩ := emitEvent_out_shape hmem
  exact h (List.mem_map.mpr ⟨(cid, fl), hfl, rfl⟩)

theorem sendToClient_connected_ok (st : ServerState) (cid : String)
    (m : OutMessage) :
    (sendToClient st cid m true).1.connected_clients = st.connected_clients := by
  by_cases h : cid ∈ st.connected_clients <;> simp [sendToClient, h]

theorem emitLoop_connected_all_ok {e : StreamEvent} {t : ℚ}
    {ok : String → Bool} (hok : ∀ c, ok c = true)
    (entries : List (String × List StreamFilter)) :
    ∀ st outs,
      (emitLoop e t ok entries st outs).1.connected_clients =
        st.connected_clients := by
  induction entries with
  | nil => intro st outs; rfl
  | cons en tl ih =>
    intro st outs
    simp only [emitLoop]
    split
    · rw [ih, hok en.1, sendToClient_connected_ok]
    · rw [ih]

theorem emitEvent_connected_all_ok {st : ServerState} {e : StreamEvent}
    {t : ℚ} {ok : String → Bool} (hok : ∀ c, ok c = true) :
    (emitEvent st e t ok).1.connected_clients = st.connected_clients := by
  simp [emitEvent, emitLoop_connected_all_ok hok]

/-! ### Claim C2 -/

/-- C2 counterexample: with `quality_threshold = 0` (a declared constraint
in the claim's reading) and `quality_score = -1`, the constraint `0 ≤ -1`
is violated and the filter list is non-empty, yet the code reports a
match, because `if f.quality_threshold:` is false for `0`.  So `matches`
is not equivalent to "empty or some filter with every declared constraint
satisfied". -/
theorem C2_counterexample :
    eventMatchesFilters
      ⟨.PROOF_SUBMITTED, "s", 0,
        ⟨none, none, none, some (-1), none, none, none, none, none⟩⟩
      [⟨none, none, none, some 0, none⟩] = true ∧
    claimFilterMatches ⟨none, none, none, some 0, none⟩
      ⟨.PROOF_SUBMITTED, "s", 0,
        ⟨none, none, none, some (-1), none, none, none, none, none⟩⟩ = false ∧
    ([(⟨none, none, none, some 0, none⟩ : StreamFilter)] : List StreamFilter) ≠ [] := by
  refine ⟨rfl, rfl, by simp⟩

/-- C2 (amended): `matches` is true iff the filter sequence is empty or
some filter in it has every one of its declared constraints satisfied —
where a list constraint is declared when non-empty, the quality constraint
when the threshold is *nonzero*, and the chain-id constraint when the id
is a *non-empty* string (Python truthiness); OR across filters, AND across
one filter's constraints.  Flipping any one declared constraint of a
single filter to a non-satisfying value makes `matches(E, [F])` false. -/
theorem C2_matches_characterisation :
    (∀ e fs, eventMatchesFilters e fs = true ↔
      fs = [] ∨ ∃ f ∈ fs, SatisfiesAll f e) ∧
    (∀ e f, truthyList f.event_types = true →
      e.event_type ∉ f.event_types.getD [] →
      eventMatchesFilters e [f] = false) ∧
    (∀ e f, truthyList f.architectures = true →
      optMem e.data.architecture (f.architectures.getD []) = false →
      eventMatchesFilters e [f] = false) ∧
    (∀ e f, truthyList f.agents = true →
      optMem (pyOrStr e.data.agent e.data.submitter) (f.agents.getD []) = false →
      eventMatchesFilters e [f] = false) ∧
    (∀ e f, truthyInt f.quality_threshold = true →
      e.data.quality_score.getD 0 < f.quality_threshold.getD 0 →
      eventMatchesFilters e [f] = false) ∧
    (∀ e f, truthyStr f.chain_id = true →
      e.data.chain_id ≠ f.chain_id →
      eventMatchesFilters e [f] = false) := by
  have single : ∀ e (f : StreamFilter), ¬ SatisfiesAll f e →
      eventMatchesFilters e [f] = false := by
    intro e f hns
    have hfm : filterMatches e f = false := by
      cases hb : filterMatches e f
      · rfl
      · exact absurd ((filterMatches_iff e f).mp hb) hns
    simp [eventMatchesFilters, hfm]
  refine ⟨fun e fs => eventMatchesFilters_iff e fs, ?_, ?_, ?_, ?_, ?_⟩
  · intro e f hd hc
    exact single e f (fun hs => hc (hs.1 hd))
  · intro e f hd hc
    exact single e f (fun hs => by rw [hs.2.1 hd] at hc; cases hc)
  · intro e f hd hc
    exact single e f (fun hs => by rw [hs.2.2.1 hd] at hc; cases hc)
  · intro e f hd hc
    exact single e f (fun hs => absurd (hs.2.2.2.1 hd) (not_le.mpr hc))
  · intro e f hd hc
    exact single e f (fun hs => hc (hs.2.2.2.2 hd))

/-- Instantiation of `C2_matches_characterisation`: the empty sequence
matches, and a filter whose quality threshold 5 exceeds the event's
quality 3 does not. -/
theorem C2_matches_characterisation_witness :
    eventMatchesFilters
      ⟨.VERIFICATION_COMPLETE, "s", 0,
        ⟨none, none, none, some 3, none, none, none, none, none⟩⟩ [] = true ∧
    eventMatchesFilters
      ⟨.VERIFICATION_COMPLETE, "s", 0,
        ⟨none, none, none, some 3, none, none, none, none, none⟩⟩
      [⟨none, none, none, some 5, none⟩] = false := by
  constructor
  · exact (C2_matches_characterisation.1 _ []).mpr (Or.inl rfl)
  · exact C2_matches_characterisation.2.2.2.2.1 _
      ⟨none, none, none, some 5, none⟩ rfl (by decide)

/-! ### Claim C7 -/

/-- C7 counterexample: with `quality_threshold` set to `0` and an event
whose `quality_score` is `-1 < 0`, the claim demands no match, but the
code matches: `if f.quality_threshold:` skips the comparison entirely for
the threshold `0`. -/
theorem C7_counterexample :
    eventMatchesFilters
      ⟨.CHAIN_STEP_ADDED, "s", 0,
        ⟨none, none, none, some (-1), none, none, none, none, none⟩⟩
      [⟨none, none, none, some 0, none⟩] = true ∧
    ((⟨none, none, none, some (-1), none, none, none, none, none⟩ :
        EventData).quality_score.getD 0 < 0) := by
  exact ⟨rfl, by decide⟩

/-- C7 (amended): for a single filter constraining only the quality
threshold `t`, a *nonzero* `t` matches exactly the events whose
`quality_score` (default 0) is ≥ `t`; the threshold `t = 0` imposes no
constraint at all (every event matches), because `0` is falsy. -/
theorem C7_quality_threshold (e : StreamEvent) (t : Int) :
    (t ≠ 0 →
      (eventMatchesFilters e [⟨none, none, none, some t, none⟩] = true ↔
        t ≤ e.data.quality_score.getD 0)) ∧
    eventMatchesFilters e [⟨none, none, none, some 0, none⟩] = true := by
  constructor
  · intro ht
    simp [eventMatchesFilters, filterMatches, truthyList, truthyInt,
      truthyStr, ht, not_lt]
  · simp [eventMatchesFilters, filterMatches, truthyList, truthyInt,
      truthyStr]

/-- Instantiation of `C7_quality_threshold` at threshold 7 and quality 9. -/
theorem C7_quality_threshold_witness :
    eventMatchesFilters
      ⟨.OPERAD_COMPLETED, "s", 0,
        ⟨none, none, none, some 9, none, none, none, none, none⟩⟩
      [⟨none, none, none, some 7, none⟩] = true := by
  exact ((C7_quality_threshold
    ⟨.OPERAD_COMPLETED, "s", 0,
      ⟨none, none, none, some 9, none, none, none, none, none⟩⟩ 7).1
    (by decide)).mpr (by decide)

/-! ### Claim C9 -/

/-- C9: a metrics tick with positive elapsed time sets
`events_per_second` to the events since the last tick divided by the
elapsed time, resets the since-last-tick counter and records the tick
time; and every `emit` increments the since-last-tick counter and the
total-event counter exactly once. -/
theorem C9_metrics :
    (∀ st (t : ℚ), 0 < t - st.last_metrics_update →
      (metricsTick st t).events_per_second =
        (st.events_since_last_update : ℚ) / (t - st.last_metrics_update) ∧
      (metricsTick st t).events_since_last_update = 0 ∧
      (metricsTick st t).last_metrics_update = t) ∧
    (∀ st e (t : ℚ) ok,
      (emitEvent st e t ok).1.events_since_last_update =
        st.events_since_last_update + 1 ∧
      (emitEvent st e t ok).1.total_events = st.total_events + 1) := by
  constructor
  · intro st t h
    refine ⟨by simp [metricsTick, h], by simp [metricsTick], by simp [metricsTick]⟩
  · intro st e t ok
    exact ⟨emitEvent_since st e t ok, emitEvent_total st e t ok⟩

/-- Instantiation of `C9_metrics`: a tick after 10 events over 5 time
units reports `events_per_second = 2`. -/
theorem C9_metrics_witness :
    (0 : ℚ) < (5 : ℚ) - (0 : ℚ) ∧
    (metricsTick ⟨[], [], [], 10, 0, 10, 0⟩ 5).events_per_second = 2 := by
  refine ⟨by norm_num, ?_⟩
  rw [(C9_metrics.1 ⟨[], [], [], 10, 0, 10, 0⟩ 5 (by norm_num)).1]
  norm_num

/-! ### Claim C1 -/

/-- C1 counterexample: a freshly accepted connection is *not* registered
in the subscription table, and a subsequent broadcast delivers nothing at
all — in particular nothing to that client — contradicting the claim that
a never-subscribed client receives every event. -/
theorem C1_counterexample :
    (handleClientConnect ServerState.initial "c" true).1.connected_clients = ["c"] ∧
    (handleClientConnect ServerState.initial "c" true).1.client_subscriptions = [] ∧
    (emitEvent (handleClientConnect ServerState.initial "c" true).1
      ⟨.AGENT_REGISTERED, "global", 1,
        ⟨none, none, none, none, none, none, none, none, none⟩⟩ 1
      (fun _ => true)).2 = [] := by
  exact ⟨rfl, rfl, rfl⟩

/-- C1 (amended): accepting a connection registers it in the connection
table only — `client_subscriptions` is untouched, so a client that never
sent `subscribe` has no entry there and receives *no* events from `emit`
(which iterates the subscription table, not the connection table).  Only
a client that has an entry with an empty filter list (e.g. after clearing
its subscriptions) receives every event. -/
theorem C1_unsubscribed_delivery :
    (∀ st cid ok,
      (handleClientConnect st cid ok).1.client_subscriptions =
        st.client_subscriptions) ∧
    (∀ st e (t : ℚ) ok cid m, cid ∉ st.client_subscriptions.map Prod.fst →
      (cid, m) ∉ (emitEvent st e t ok).2) ∧
    (∀ st e (t : ℚ) ok cid, ok cid = true → cid ∈ st.connected_clients →
      (cid, ([] : List StreamFilter)) ∈ st.client_subscriptions →
      (cid, OutMessage.stream_event e t) ∈ (emitEvent st e t ok).2) := by
  refine ⟨?_, ?_, ?_⟩
  · intro st cid ok
    simp [handleClientConnect, sendToClient_subscriptions]
  · intro st e t ok cid m h
    exact emitEvent_not_subscribed h m
  · intro st e t ok cid hok hc hmem
    exact emitEvent_delivers hok hc hmem rfl

/-- Instantiation of `C1_unsubscribed_delivery`: a client whose
subscription entry exists and is empty receives the broadcast. -/
theorem C1_unsubscribed_delivery_witness :
    ("b", OutMessage.stream_event
      ⟨.TASK_DELEGATED, "g", 2,
        ⟨none, none, none, none, none, none, none, none, none⟩⟩ 2) ∈
    (emitEvent ⟨["b"], [("b", [])], [], 0, 0, 0, 0⟩
      ⟨.TASK_DELEGATED, "g", 2,
        ⟨none, none, none, none, none, none, none, none, none⟩⟩ 2
      (fun _ => true)).2 := by
  exact C1_unsubscribed_delivery.2.2 ⟨["b"], [("b", [])], [], 0, 0, 0, 0⟩ _ 2 _
    "b" rfl (by simp) (by simp)

/-! ### Claim C6 -/

/-- C6 counterexample: a failed send removes the client from the
connection table but leaves its subscription-registry entry in place —
the teardown is *not* the same as the transport-close teardown, which
removes both. -/
theorem C6_counterexample :
    (sendToClient ⟨["c"], [("c", [])], [], 0, 0, 0, 0⟩ "c"
      (.pong 0) false).1.connected_clients = [] ∧
    (sendToClient ⟨["c"], [("c", [])], [], 0, 0, 0, 0⟩ "c"
      (.pong 0) false).1.client_subscriptions = [("c", [])] := by
  exact ⟨rfl, rfl⟩

/-- C6 (amended): a send failure deletes the client from the connection
table only (its subscription entry survives until the reader loop's
cleanup, which removes both); a client absent from the connection table is
never sent anything — neither directly nor by a broadcast; and the
failure is invisible to every other connection. -/
theorem C6_send_failure_teardown :
    (∀ st cid m, cid ∈ st.connected_clients →
      sendToClient st cid m false =
        ({st with connected_clients := st.connected_clients.erase cid}, [])) ∧
    (∀ st cid m ok,
      (sendToClient st cid m ok).1.client_subscriptions =
        st.client_subscriptions) ∧
    (∀ st cid, (st.client_subscriptions.map Prod.fst).Nodup →
      getKey (clientCleanup st cid).client_subscriptions cid = none ∧
      (st.connected_clients.Nodup →
        cid ∉ (clientCleanup st cid).connected_clients)) ∧
    (∀ st cid m ok, cid ∉ st.connected_clients →
      sendToClient st cid m ok = (st, [])) ∧
    (∀ st e (t : ℚ) ok cid m, cid ∉ st.connected_clients →
      (cid, m) ∉ (emitEvent st e t ok).2) ∧
    (∀ st cid m other, other ≠ cid →
      (other ∈ (sendToClient st cid m false).1.connected_clients ↔
        other ∈ st.connected_clients)) := by
  refine ⟨?_, ?_, ?_, ?_, ?_, ?_⟩
  · intro st cid m hc
    exact sendToClient_fail m hc
  · intro st cid m ok
    exact sendToClient_subscriptions st cid m ok
  · intro st cid hk
    refine ⟨getKey_eraseKey_self _ _ hk, fun hnd => ?_⟩
    exact hnd.not_mem_erase
  · intro st cid m ok h
    exact sendToClient_absent m ok h
  · intro st e t ok cid m h hmem
    exact h (emitEvent_out_shape hmem).2.1
  · intro st cid m other hne
    by_cases hc : cid ∈ st.connected_clients
    · rw [sendToClient_fail m hc]
      exact List.mem_erase_of_ne hne
    · rw [sendToClient_absent m false hc]

/-- Instantiation of `C6_send_failure_teardown`: sending to an unknown
client leaves the state untouched and delivers nothing. -/
theorem C6_send_failure_teardown_witness :
    sendToClient ServerState.initial "x" (.pong 3) true =
      (ServerState.initial, []) := by
  exact C6_send_failure_teardown.2.2.2.1 ServerState.initial "x" (.pong 3)
    true (by simp [ServerState.initial])

/-! ### Claim C4 -/

theorem handleSubscriptionTyped_eq (st : ServerState) (cid : String)
    (f : StreamFilter) (hc : cid ∈ st.connected_clients) :
    handleSubscriptionTyped st cid f true =
      ({st with client_subscriptions := setKey st.client_subscriptions cid (((getKey st.client_subscriptions cid).getD []) ++ [f])},
       [(cid, .subscription_confirmed f
          ((getKey st.client_subscriptions cid).getD []).length)]) := by
  simp only [handleSubscriptionTyped]
  rw [show (((getKey st.client_subscriptions cid).getD []) ++ [f]).length - 1
      = ((getKey st.client_subscriptions cid).getD []).length from by simp]
  exact sendToClient_success _ hc

theorem handleUnsubscriptionTyped_inrange (st : ServerState) (cid : String)
    (subs : List StreamFilter) (i : Int) (hc : cid ∈ st.connected_clients)
    (hsubs : getKey st.client_subscriptions cid = some subs)
    (h1 : 0 ≤ i) (h2 : i < (subs.length : Int)) :
    handleUnsubscriptionTyped st cid (some i) true =
      ({st with client_subscriptions :=
          setKey st.client_subscriptions cid (subs.eraseIdx i.toNat)},
       [(cid, .unsubscription_confirmed i)]) := by
  simp only [handleUnsubscriptionTyped, hsubs, h1, h2, and_self, if_true]
  exact sendToClient_success _ hc

theorem handleUnsubscriptionTyped_invalid (st : ServerState) (cid : String)
    (subs : List StreamFilter) (i : Int) (hc : cid ∈ st.connected_clients)
    (hsubs : getKey st.client_subscriptions cid = some subs)
    (h : ¬ (0 ≤ i ∧ i < (subs.length : Int))) :
    handleUnsubscriptionTyped st cid (some i) true =
      ({st with client_subscriptions := setKey st.client_subscriptions cid []},
       [(cid, .all_subscriptions_cleared)]) := by
  simp only [handleUnsubscriptionTyped, hsubs, if_neg h]
  exact sendToClient_success _ hc

theorem handleUnsubscriptionTyped_absent (st : ServerState) (cid : String)
    (subs : List StreamFilter) (hc : cid ∈ st.connected_clients)
    (hsubs : getKey st.client_subscriptions cid = some subs) :
    handleUnsubscriptionTyped st cid none true =
      ({st with client_subscriptions := setKey st.client_subscriptions cid []},
       [(cid, .all_subscriptions_cleared)]) := by
  simp only [handleUnsubscriptionTyped, hsubs]
  exact sendToClient_success _ hc

/-- C4 counterexample: a connection with no subscription-registry entry
(one that never subscribed) sending `unsubscribe` gets *no* reply and no
state change — a silent no-op, contradicting "never a silent no-op ...
reports which action was taken". -/
theorem C4_counterexample :
    handleUnsubscriptionTyped ⟨["c"], [], [], 0, 0, 0, 0⟩ "c" none true =
      (⟨["c"], [], [], 0, 0, 0, 0⟩, []) := by
  rfl

/-- C4 (amended): for a connection that *has* a registry entry, `add`
appends and confirms with index = previous length; `remove` with an
in-range index deletes exactly that entry and confirms it; an
out-of-range or absent index clears the whole list and reports
`all_subscriptions_cleared`.  (A connection with no registry entry is
skipped silently.) -/
theorem C4_subscription_registry :
    (∀ st cid f, cid ∈ st.connected_clients →
      getKey (handleSubscriptionTyped st cid f true).1.client_subscriptions cid =
        some (((getKey st.client_subscriptions cid).getD []) ++ [f]) ∧
      (handleSubscriptionTyped st cid f true).2 =
        [(cid, .subscription_confirmed f
          ((getKey st.client_subscriptions cid).getD []).length)]) ∧
    (∀ st cid subs (i : Int), cid ∈ st.connected_clients →
      getKey st.client_subscriptions cid = some subs →
      0 ≤ i → i < (subs.length : Int) →
      getKey (handleUnsubscriptionTyped st cid (some i) true).1.client_subscriptions cid =
        some (subs.eraseIdx i.toNat) ∧
      (handleUnsubscriptionTyped st cid (some i) true).2 =
        [(cid, .unsubscription_confirmed i)]) ∧
    (∀ st cid subs (i : Int), cid ∈ st.connected_clients →
      getKey st.client_subscriptions cid = some subs →
      ¬ (0 ≤ i ∧ i < (subs.length : Int)) →
      getKey (handleUnsubscriptionTyped st cid (some i) true).1.client_subscriptions cid =
        some [] ∧
      (handleUnsubscriptionTyped st cid (some i) true).2 =
        [(cid, .all_subscriptions_cleared)]) ∧
    (∀ st cid subs, cid ∈ st.connected_clients →
      getKey st.client_subscriptions cid = some subs →
      getKey (handleUnsubscriptionTyped st cid none true).1.client_subscriptions cid =
        some [] ∧
      (handleUnsubscriptionTyped st cid none true).2 =
        [(cid, .all_subscriptions_cleared)]) := by
  refine ⟨?_, ?_, ?_, ?_⟩
  · intro st cid f hc
    rw [handleSubscriptionTyped_eq st cid f hc]
    exact ⟨getKey_setKey_self _ _ _, rfl⟩
  · intro st cid subs i hc hsubs h1 h2
    rw [handleUnsubscriptionTyped_inrange st cid subs i hc hsubs h1 h2]
    exact ⟨getKey_setKey_self _ _ _, rfl⟩
  · intro st cid subs i hc hsubs h
    rw [handleUnsubscriptionTyped_invalid st cid subs i hc hsubs h]
    exact ⟨getKey_setKey_self _ _ _, rfl⟩
  · intro st cid subs hc hsubs
    rw [handleUnsubscriptionTyped_absent st cid subs hc hsubs]
    exact ⟨getKey_setKey_self _ _ _, rfl⟩

/-- Instantiation of `C4_subscription_registry`: the first added filter
gets index 0, and removing at the out-of-range index 5 clears the list. -/
theorem C4_subscription_registry_witness :
    (getKey (handleSubscriptionTyped ⟨["c"], [], [], 0, 0, 0, 0⟩ "c"
        StreamFilter.empty true).1.client_subscriptions "c" =
      some [StreamFilter.empty] ∧
     (handleSubscriptionTyped ⟨["c"], [], [], 0, 0, 0, 0⟩ "c"
        StreamFilter.empty true).2 =
      [("c", .subscription_confirmed StreamFilter.empty 0)]) ∧
    (getKey (handleUnsubscriptionTyped
        ⟨["c"], [("c", [StreamFilter.empty])], [], 0, 0, 0, 0⟩ "c"
        (some 5) true).1.client_subscriptions "c" = some [] ∧
     (handleUnsubscriptionTyped
        ⟨["c"], [("c", [StreamFilter.empty])], [], 0, 0, 0, 0⟩ "c"
        (some 5) true).2 = [("c", .all_subscriptions_cleared)]) := by
  constructor
  · exact C4_subscription_registry.1 ⟨["c"], [], [], 0, 0, 0, 0⟩ "c"
      StreamFilter.empty (by simp)
  · exact C4_subscription_registry.2.2.1
      ⟨["c"], [("c", [StreamFilter.empty])], [], 0, 0, 0, 0⟩ "c"
      [StreamFilter.empty] 5 (by simp) rfl (by decide)

/-! ### Claim C5 -/

theorem handleCreateStream_streams (hash : String → String)
    (st : ServerState) (cid : String) (spec : Json) (t : ℚ)
    (ok : String → Bool) :
    (handleCreateStream hash st cid spec t ok).1.active_streams =
      setKey st.active_streams (createStreamId hash cid spec t)
        ⟨cid, spec, t, 0⟩ := by
  simp [handleCreateStream, emitEvent_streams, sendToClient_streams]

theorem runCreateStreams_ids (hash : String → String)
    (calls : List (String × Json × ℚ)) :
    ∀ st, (runCreateStreams hash st calls).2 =
      calls.map (fun c => createStreamId hash c.1 c.2.1 c.2.2) := by
  induction calls with
  | nil => intro st; rfl
  | cons c rest ih => intro st; simp [runCreateStreams, ih]

/-- C5 counterexample: two `create_stream` calls from the same client
with the same spec at the same `time.time()` value produce the *same*
stream id (the id is a function of creator, spec and time only), and the
second registration overwrites the first, leaving one table entry instead
of two. -/
theorem C5_counterexample :
    ¬ ((runCreateStreams (fun s => s) ServerState.initial
        [("c", Json.str "sp", 5), ("c", Json.str "sp", 5)]).2).Nodup ∧
    (runCreateStreams (fun s => s) ServerState.initial
        [("c", Json.str "sp", 5), ("c", Json.str "sp", 5)]).1.active_streams.length = 1 := by
  constructor
  · decide
  · decide

/-- C5 (amended): registered stream ids stay pairwise distinct (dict
assignment cannot duplicate a key), and the ids returned by a sequence of
`create_stream` calls are pairwise distinct *provided* the
`(creator, spec, timestamp)` key strings of the calls are pairwise
distinct and the hash is collision-free on them; identical key strings
(same creator, same spec, equal `time.time()` readings) yield identical
ids. -/
theorem C5_stream_id_uniqueness :
    (∀ hash st cid spec (t : ℚ) ok, (st.active_streams.map Prod.fst).Nodup →
      (((handleCreateStream hash st cid spec t ok).1.active_streams).map
        Prod.fst).Nodup) ∧
    (∀ hash st calls, Function.Injective hash →
      (calls.map (fun c => createKeyString c.1 c.2.1 c.2.2)).Nodup →
      ((runCreateStreams hash st calls).2).Nodup) := by
  constructor
  · intro hash st cid spec t ok hnd
    rw [handleCreateStream_streams]
    exact nodup_keys_setKey _ _ _ hnd
  · intro hash st calls hinj hnd
    rw [runCreateStreams_ids]
    have hcomp : calls.map (fun c => createStreamId hash c.1 c.2.1 c.2.2) =
        (calls.map (fun c => createKeyString c.1 c.2.1 c.2.2)).map hash := by
      rw [List.map_map]; rfl
    rw [hcomp]
    exact hnd.map hinj

/-- Instantiation of `C5_stream_id_uniqueness`: two calls whose key
strings differ (different timestamps) give distinct ids. -/
theorem C5_stream_id_uniqueness_witness :
    ((runCreateStreams (fun s => s) ServerState.initial
      [("c", Json.str "sp", 5), ("c", Json.str "sp", 6)]).2).Nodup := by
  exact C5_stream_id_uniqueness.2 (fun s => s) ServerState.initial
    [("c", Json.str "sp", 5), ("c", Json.str "sp", 6)]
    (fun _ _ h => h) (by decide)

/-! ### Claim C3 -/

theorem submit_pair_eq (st2 : ServerState) (cid : String) (m : OutMessage)
    (outs1 : List (String × OutMessage)) (hc2 : cid ∈ st2.connected_clients) :
    ((sendToClient st2 cid m true).1, outs1 ++ (sendToClient st2 cid m true).2) =
      (st2, outs1 ++ [(cid, m)]) := by
  rw [sendToClient_success m hc2]

/-- C3: submitting to an unregistered stream id yields only the
`proof_submission_error` reply (no counter change, no broadcast);
submitting to a registered stream increments exactly that stream's
`event_count` by one, emits exactly one event (the global event counter
rises by one) whose deliveries all carry the `PROOF_SUBMITTED` event with
the 16-character content fingerprints of the payload and public inputs —
not the raw payload — plus submitter identity and declared architecture,
and ends with the `proof_submitted / accepted` reply to the submitter. -/
theorem C3_submit_proof :
    (∀ hash st cid sid pd pi arch (t : ℚ) ok rec,
      getKey st.active_streams sid = some rec →
      ok cid = true → cid ∈ st.connected_clients →
      getKey (handleProofSubmission hash st cid sid pd pi arch t ok).1.active_streams sid =
        some {rec with event_count := rec.event_count + 1} ∧
      (∀ sid', sid' ≠ sid →
        getKey (handleProofSubmission hash st cid sid pd pi arch t ok).1.active_streams sid' =
          getKey st.active_streams sid') ∧
      (handleProofSubmission hash st cid sid pd pi arch t ok).1.total_events =
        st.total_events + 1 ∧
      (∃ outs, (handleProofSubmission hash st cid sid pd pi arch t ok).2 =
          outs ++ [(cid, .proof_submitted sid "accepted")] ∧
        ∀ d ∈ outs, d.2 = OutMessage.stream_event
          ⟨.PROOF_SUBMITTED, sid, t,
            ⟨some (arch.getD "unknown"), none, some cid, none, none,
             some ((hash (pyShowOpt pd)).take 16),
             some ((hash (pyShowOpt pi)).take 16), none, none⟩⟩ t)) ∧
    (∀ hash st cid sid pd pi arch (t : ℚ) ok,
      getKey st.active_streams sid = none →
      ok cid = true → cid ∈ st.connected_clients →
      handleProofSubmission hash st cid sid pd pi arch t ok =
        (st, [(cid, .proof_submission_error ("Stream " ++ sid ++ " not found"))])) := by
  constructor
  · intro hash st cid sid pd pi arch t ok rec hrec hok hc
    have hsome : (getKey st.active_streams sid).isSome = true := by
      rw [hrec]; rfl
    have hmain : handleProofSubmission hash st cid sid pd pi arch t ok =
        ({(emitEvent st
            ⟨.PROOF_SUBMITTED, sid, t,
              ⟨some (arch.getD "unknown"), none, some cid, none, none,
               some ((hash (pyShowOpt pd)).take 16),
               some ((hash (pyShowOpt pi)).take 16), none, none⟩⟩ t ok).1 with
          active_streams := updateKey (emitEvent st
            ⟨.PROOF_SUBMITTED, sid, t,
              ⟨some (arch.getD "unknown"), none, some cid, none, none,
               some ((hash (pyShowOpt pd)).take 16),
               some ((hash (pyShowOpt pi)).take 16), none, none⟩⟩ t ok).1.active_streams sid
            (fun r => {r with event_count := r.event_count + 1})},
         (emitEvent st
            ⟨.PROOF_SUBMITTED, sid, t,
              ⟨some (arch.getD "unknown"), none, some cid, none, none,
               some ((hash (pyShowOpt pd)).take 16),
               some ((hash (pyShowOpt pi)).take 16), none, none⟩⟩ t ok).2 ++
           [(cid, .proof_submitted sid "accepted")]) := by
      simp only [handleProofSubmission, hsome, if_true, hok]
      exact submit_pair_eq _ cid _ _ (emitEvent_mem_connected hok hc)
    refine ⟨?_, ?_, ?_, ?_⟩
    · rw [hmain]
      show getKey (updateKey _ sid _) sid = _
      rw [getKey_updateKey_self, emitEvent_streams, hrec]
      rfl
    · intro sid' hne
      rw [hmain]
      show getKey (updateKey _ sid _) sid' = _
      rw [getKey_updateKey_ne _ _ hne, emitEvent_streams]
    · rw [hmain]
      exact emitEvent_total st _ t ok
    · rw [hmain]
      exact ⟨_, rfl, fun d hd => (emitEvent_out_shape hd).1⟩
  · intro hash st cid sid pd pi arch t ok h hok hc
    have hnone : (getKey st.active_streams sid).isSome = false := by
      rw [h]; rfl
    simp only [handleProofSubmission, hnone, Bool.false_eq_true, if_false, hok]
    exact sendToClient_success _ hc

/-- Instantiation of `C3_submit_proof`: submitting to the registered
stream `"S"` bumps its count from 0 to 1; submitting to the unregistered
id `"unknown"` yields only the not-found error reply. -/
theorem C3_submit_proof_witness :
    getKey (handleProofSubmission (fun s => s)
        ⟨["c"], [], [("S", ⟨"c", Json.obj [], 0, 0⟩)], 0, 0, 0, 0⟩
        "c" "S" none none none 1 (fun _ => true)).1.active_streams "S" =
      some ⟨"c", Json.obj [], 0, 1⟩ ∧
    handleProofSubmission (fun s => s)
        ⟨["c"], [], [("S", ⟨"c", Json.obj [], 0, 0⟩)], 0, 0, 0, 0⟩
        "c" "unknown" none none none 1 (fun _ => true) =
      (⟨["c"], [], [("S", ⟨"c", Json.obj [], 0, 0⟩)], 0, 0, 0, 0⟩,
       [("c", .proof_submission_error "Stream unknown not found")]) := by
  constructor
  · exact (C3_submit_proof.1 (fun s => s)
      ⟨["c"], [], [("S", ⟨"c", Json.obj [], 0, 0⟩)], 0, 0, 0, 0⟩
      "c" "S" none none none 1 (fun _ => true) ⟨"c", Json.obj [], 0, 0⟩
      rfl rfl (by simp)).1
  · exact C3_submit_proof.2 (fun s => s)
      ⟨["c"], [], [("S", ⟨"c", Json.obj [], 0, 0⟩)], 0, 0, 0, 0⟩
      "c" "unknown" none none none 1 (fun _ => true) rfl rfl (by simp)

/-! ### Dispatch lemmas for `_handle_client_message` -/

theorem handleClientMessage_subscribe (hash : String → String)
    (st : ServerState) (cid : String) (t : ℚ) (ok : String → Bool)
    (fields : List (String × Json))
    (htype : getKey fields "type" = some (.str "subscribe")) :
    handleClientMessage hash st cid (some (.obj fields)) t ok =
      handleSubscriptionJson st cid (.obj fields) (ok cid) := by
  simp only [handleClientMessage, Json.getField, htype]

theorem handleClientMessage_unsub_error (hash : String → String)
    (st : ServerState) (cid : String) (t : ℚ) (ok : String → Bool)
    (fields : List (String × Json)) (m : String)
    (htype : getKey fields "type" = some (.str "unsubscribe"))
    (herr : handleUnsubscriptionJson st cid (.obj fields) (ok cid) = .error m) :
    handleClientMessage hash st cid (some (.obj fields)) t ok =
      sendToClient st cid (.error m) (ok cid) := by
  simp only [handleClientMessage, Json.getField, htype, herr]

theorem handleClientMessage_unknown (hash : String → String)
    (st : ServerState) (cid : String) (t : ℚ) (ok : String → Bool)
    (fields : List (String × Json)) (s : String)
    (htype : getKey fields "type" = some (.str s))
    (h1 : s ≠ "subscribe") (h2 : s ≠ "unsubscribe")
    (h3 : s ≠ "create_stream") (h4 : s ≠ "submit_proof") (h5 : s ≠ "ping") :
    handleClientMessage hash st cid (some (.obj fields)) t ok =
      sendToClient st cid (.error ("Unknown message type: " ++ s)) (ok cid) := by
  simp only [handleClientMessage, Json.getField, htype]
  split <;> simp_all [pyShowOpt, pyShow]

/-! ### The connection table is untouched by message handling when sends
succeed -/

theorem handleSubscriptionTyped_connected (st : ServerState) (cid : String)
    (f : StreamFilter) :
    (handleSubscriptionTyped st cid f true).1.connected_clients =
      st.connected_clients := by
  simp [handleSubscriptionTyped, sendToClient_connected_ok]

theorem handleUnsubscriptionTyped_connected (st : ServerState) (cid : String)
    (sub_id : Option Int) :
    (handleUnsubscriptionTyped st cid sub_id true).1.connected_clients =
      st.connected_clients := by
  unfold handleUnsubscriptionTyped
  repeat' split
  all_goals first | rfl | exact sendToClient_connected_ok _ _ _

theorem handleCreateStream_connected (hash : String → String)
    (st : ServerState) (cid : String) (spec : Json) (t : ℚ)
    (ok : String → Bool) (hok : ∀ c, ok c = true) :
    (handleCreateStream hash st cid spec t ok).1.connected_clients =
      st.connected_clients := by
  simp only [handleCreateStream]
  rw [emitEvent_connected_all_ok hok, hok cid, sendToClient_connected_ok]

theorem handleProofSubmission_connected (hash : String → String)
    (st : ServerState) (cid sid : String) (pd pi : Option Json)
    (arch : Option String) (t : ℚ) (ok : String → Bool)
    (hok : ∀ c, ok c = true) :
    (handleProofSubmission hash st cid sid pd pi arch t ok).1.connected_clients =
      st.connected_clients := by
  unfold handleProofSubmission
  split
  · rw [hok cid, sendToClient_connected_ok]
    exact emitEvent_connected_all_ok hok
  · rw [hok cid, sendToClient_connected_ok]

theorem handleSubscriptionJson_connected (st : ServerState) (cid : String)
    (data : Json) :
    (handleSubscriptionJson st cid data true).1.connected_clients =
      st.connected_clients := by
  unfold handleSubscriptionJson
  split
  · exact sendToClient_connected_ok _ _ _
  · exact handleSubscriptionTyped_connected _ _ _

theorem handleUnsubscriptionJson_connected (st : ServerState) (cid : String)
    (data : Json) (r : ServerState × List (String × OutMessage))
    (h : handleUnsubscriptionJson st cid data true = .ok r) :
    r.1.connected_clients = st.connected_clients := by
  unfold handleUnsubscriptionJson at h
  split at h
  · cases h; rfl
  · split at h
    · cases h; exact handleUnsubscriptionTyped_connected _ _ _
    · cases h; exact handleUnsubscriptionTyped_connected _ _ _
    · cases h; exact handleUnsubscriptionTyped_connected _ _ _
    · cases h; exact handleUnsubscriptionTyped_connected _ _ _
    · cases h

theorem handleProofSubmissionJson_connected (hash : String → String)
    (st : ServerState) (cid : String) (data : Json) (t : ℚ)
    (ok : String → Bool) (hok : ∀ c, ok c = true) :
    (handleProofSubmissionJson hash st cid data t ok).1.connected_clients =
      st.connected_clients := by
  unfold handleProofSubmissionJson
  split
  · rw [hok cid]; exact sendToClient_connected_ok _ _ _
  · rw [hok cid]; exact sendToClient_connected_ok _ _ _
  · exact handleProofSubmission_connected _ _ _ _ _ _ _ _ _ hok
  · rw [hok cid]; exact sendToClient_connected_ok _ _ _

theorem handleClientMessage_connected (hash : String → String)
    (st : ServerState) (cid : String) (frame : Option Json) (t : ℚ)
    (ok : String → Bool) (hok : ∀ c, ok c = true) :
    (handleClientMessage hash st cid frame t ok).1.connected_clients =
      st.connected_clients := by
  unfold handleClientMessage
  split
  · rw [hok cid]; exact sendToClient_connected_ok _ _ _
  · split
    · rw [hok cid]
      split
      · exact handleSubscriptionJson_connected _ _ _
      · split
        · exact handleUnsubscriptionJson_connected _ _ _ _ (by assumption)
        · exact sendToClient_connected_ok _ _ _
      · exact handleCreateStream_connected _ _ _ _ _ _ hok
      · exact handleProofSubmissionJson_connected _ _ _ _ _ _ hok
      · exact sendToClient_connected_ok _ _ _
      · exact sendToClient_connected_ok _ _ _
    · rw [hok cid]; exact sendToClient_connected_ok _ _ _

/-! ### Claim C8 -/

/-- C8 counterexample: a fault inside the `unsubscribe` handler (here a
`TypeError` from comparing an integer with the string subscription id
`"x"`) is caught by the dispatcher's generic `except` and answered with a
plain `error` reply — not with a reply carrying the request's own type
context, as the claim demands for every request handler. -/
theorem C8_counterexample :
    handleClientMessage (fun s => s) ⟨["c"], [("c", [])], [], 0, 0, 0, 0⟩ "c"
      (some (.obj [("type", .str "unsubscribe"), ("subscription_id", .str "x")]))
      0 (fun _ => true) =
    (⟨["c"], [("c", [])], [], 0, 0, 0, 0⟩,
     [("c", .error "'<=' not supported between instances of 'int' and 'str'")]) := by
  rfl

/-- C8 (amended): an undecodable frame is answered with
`error "Invalid JSON format"`; a frame with an unrecognized type with
`error "Unknown message type: <type>"`; a fault during subscribe filter
construction with the request-scoped `subscription_error`; but a fault
inside the unsubscribe handler escapes to the dispatcher and is answered
with a *generic* `error` reply.  In every case the handler returns
normally and, when sends succeed, the connection table is unchanged — the
connection stays open and the broker keeps running. -/
theorem C8_error_handling :
    (∀ hash st cid (t : ℚ) ok, ok cid = true → cid ∈ st.connected_clients →
      handleClientMessage hash st cid none t ok =
        (st, [(cid, .error "Invalid JSON format")])) ∧
    (∀ hash st cid (t : ℚ) ok fields s, ok cid = true →
      cid ∈ st.connected_clients →
      getKey fields "type" = some (.str s) →
      s ≠ "subscribe" → s ≠ "unsubscribe" → s ≠ "create_stream" →
      s ≠ "submit_proof" → s ≠ "ping" →
      handleClientMessage hash st cid (some (.obj fields)) t ok =
        (st, [(cid, .error ("Unknown message type: " ++ s))])) ∧
    (∀ hash st cid (t : ℚ) ok fields m, ok cid = true →
      cid ∈ st.connected_clients →
      getKey fields "type" = some (.str "subscribe") →
      parseStreamFilter ((Json.getField (.obj fields) "filter").getD (.obj [])) =
        .error m →
      handleClientMessage hash st cid (some (.obj fields)) t ok =
        (st, [(cid, .subscription_error m)])) ∧
    (∀ hash st cid (t : ℚ) ok fields m, ok cid = true →
      cid ∈ st.connected_clients →
      getKey fields "type" = some (.str "unsubscribe") →
      handleUnsubscriptionJson st cid (.obj fields) (ok cid) = .error m →
      handleClientMessage hash st cid (some (.obj fields)) t ok =
        (st, [(cid, .error m)])) ∧
    (∀ hash st cid frame (t : ℚ) ok, (∀ c, ok c = true) →
      (handleClientMessage hash st cid frame t ok).1.connected_clients =
        st.connected_clients) := by
  refine ⟨?_, ?_, ?_, ?_, ?_⟩
  · intro hash st cid t ok hok hc
    simp only [handleClientMessage, hok]
    exact sendToClient_success _ hc
  · intro hash st cid t ok fields s hok hc htype h1 h2 h3 h4 h5
    rw [handleClientMessage_unknown hash st cid t ok fields s htype h1 h2 h3 h4 h5,
      hok]
    exact sendToClient_success _ hc
  · intro hash st cid t ok fields m hok hc htype hparse
    rw [handleClientMessage_subscribe hash st cid t ok fields htype, hok]
    simp only [handleSubscriptionJson, hparse]
    exact sendToClient_success _ hc
  · intro hash st cid t ok fields m hok hc htype herr
    rw [handleClientMessage_unsub_error hash st cid t ok fields m htype herr,
      hok]
    exact sendToClient_success _ hc
  · intro hash st cid frame t ok hok
    exact handleClientMessage_connected hash st cid frame t ok hok

/-- Instantiation of `C8_error_handling`: an undecodable frame and an
unknown message type each get the documented `error` reply with the
state unchanged. -/
theorem C8_error_handling_witness :
    handleClientMessage (fun s => s) ⟨["w"], [], [], 0, 0, 0, 0⟩ "w" none 0
      (fun _ => true) =
      (⟨["w"], [], [], 0, 0, 0, 0⟩, [("w", .error "Invalid JSON format")]) ∧
    handleClientMessage (fun s => s) ⟨["w"], [], [], 0, 0, 0, 0⟩ "w"
      (some (.obj [("type", .str "frobnicate")])) 0 (fun _ => true) =
      (⟨["w"], [], [], 0, 0, 0, 0⟩,
       [("w", .error "Unknown message type: frobnicate")]) := by
  constructor
  · exact C8_error_handling.1 (fun s => s) ⟨["w"], [], [], 0, 0, 0, 0⟩ "w" 0
      (fun _ => true) rfl (by simp)
  · exact C8_error_handling.2.1 (fun s => s) ⟨["w"], [], [], 0, 0, 0, 0⟩ "w" 0
      (fun _ => true) [("type", .str "frobnicate")] "frobnicate" rfl (by simp)
      rfl (by decide) (by decide) (by decide) (by decide) (by decide)

/-! ### Claim C10 -/

/-- C10: a subscribe request whose filter construction fails (for
instance an `event_types` entry that is not one of the seven event kinds)
is answered with `subscription_error` and the server state — in
particular the connection's filter list, and hence all subsequently
assigned subscription indices — is returned exactly as it was: the filter
is built in full before anything is appended. -/
theorem C10_subscribe_failure_atomic (hash : String → String)
    (st : ServerState) (cid : String) (t : ℚ) (ok : String → Bool)
    (fields : List (String × Json)) (m : String) (hok : ok cid = true)
    (hc : cid ∈ st.connected_clients)
    (htype : getKey fields "type" = some (.str "subscribe"))
    (hparse : parseStreamFilter
      ((Json.getField (.obj fields) "filter").getD (.obj [])) = .error m) :
    handleClientMessage hash st cid (some (.obj fields)) t ok =
      (st, [(cid, .subscription_error m)]) := by
  rw [handleClientMessage_subscribe hash st cid t ok fields htype, hok]
  simp only [handleSubscriptionJson, hparse]
  exact sendToClient_success _ hc

/-- Instantiation of `C10_subscribe_failure_atomic`: subscribing with
`event_types: ["bogus"]` fails with the `ValueError` text and leaves the
state untouched. -/
theorem C10_subscribe_failure_atomic_witness :
    handleClientMessage (fun s => s) ⟨["c"], [("c", [])], [], 0, 0, 0, 0⟩ "c"
      (some (.obj [("type", .str "subscribe"),
        ("filter", .obj [("event_types", .arr [.str "bogus"])])])) 0
      (fun _ => true) =
    (⟨["c"], [("c", [])], [], 0, 0, 0, 0⟩,
     [("c", .subscription_error "'bogus' is not a valid EventType")]) := by
  exact C10_subscribe_failure_atomic (fun s => s)
    ⟨["c"], [("c", [])], [], 0, 0, 0, 0⟩ "c" 0 (fun _ => true)
    [("type", .str "subscribe"),
     ("filter", .obj [("event_types", .arr [.str "bogus"])])]
    "'bogus' is not a valid EventType" rfl (by simp) rfl rfl

end ProofStreaming
